import Mathlib

/-!
Shallow embedding of the KOL-dashboard alerting and metrics engine
(app.py and alert.py) and verification of the frozen claims about it.

Timestamps: parsed dates and the as-of instant are modelled as integers
(seconds on an arbitrary epoch); an unparsable date is `none` (pandas NaT).
Pandas comparisons against NaT are always false, which `optLe`, `optGe`
and `optLt` reproduce. Money columns are rationals (after coercion and
fillna(0) in the source); where the source can produce IEEE non-finite
values (division by zero in `Utilization_Rate`) the value domain is the
explicit `PFloat` type with `nan`, `posInf` and `negInf`.
-/

namespace Kol

/-- One row of the KOL_Master sheet after the normalization stage of
app.py (dates coerced with errors="coerce", money coerced and fillna(0)). -/
structure Person where
  Kol_ID : Nat
  Name : String
  Country : String
  KOL_Type : String
  Contract_End : Option Int
  Budget_USD : Rat
  Spent_USD : Rat
deriving DecidableEq, Repr

/-- One row of the Activities sheet after normalization. -/
structure Activity where
  Activity_ID : Nat
  Kol_ID : Nat
  Activity_Type : String
  Due_Date : Option Int
  Status : String
deriving DecidableEq, Repr

/-- Seconds per day; pandas timestamps subtract to timedeltas whose
`.days` field is the floor of the difference divided by this. -/
def oneDay : Int := 86400

/-- alert.py line 10. -/
def CONTRACT_ALERT_DAYS : Int := 30

/-- alert.py line 11. -/
def ACTIVITY_ALERT_DAYS : Int := 7

/-- Pandas `series <= t`: false on NaT. -/
def optLe (x : Option Int) (t : Int) : Bool :=
  match x with
  | none => false
  | some d => decide (d ≤ t)

/-- Pandas `series >= t`: false on NaT. -/
def optGe (x : Option Int) (t : Int) : Bool :=
  match x with
  | none => false
  | some d => decide (t ≤ d)

/-- Pandas `series < t`: false on NaT. -/
def optLt (x : Option Int) (t : Int) : Bool :=
  match x with
  | none => false
  | some d => decide (d < t)

/-- alert.py line 37: `master_df.dropna(subset=["Contract_End_DT"])`. -/
def masterClean (master : List Person) : List Person :=
  master.filter (fun p => p.Contract_End.isSome)

/-- alert.py line 38: `activities_df.dropna(subset=["Due_Date_DT"])`. -/
def activitiesClean (acts : List Activity) : List Activity :=
  acts.filter (fun a => a.Due_Date.isSome)

/-- alert.py lines 56-59 / app.py lines 229-232: persons whose contract
end satisfies `end <= asOf + horizon days` and `end >= asOf`. -/
def imminent_contracts (master : List Person) (asOf horizon : Int) : List Person :=
  master.filter (fun p =>
    optLe p.Contract_End (asOf + horizon * oneDay) && optGe p.Contract_End asOf)

/-- alert.py lines 74-78: activities with `due <= asOf + horizon days`,
`due >= asOf` and status exactly "Planned". -/
def imminent_activities (acts : List Activity) (asOf horizon : Int) : List Activity :=
  acts.filter (fun a =>
    optLe a.Due_Date (asOf + horizon * oneDay) && optGe a.Due_Date asOf
      && (a.Status == "Planned"))

/-- alert.py lines 93-96 / app.py lines 242-245: activities with
`due < asOf` and status anything but "Done". -/
def overdue_activities (acts : List Activity) (asOf : Int) : List Activity :=
  acts.filter (fun a => optLt a.Due_Date asOf && !(a.Status == "Done"))

/-- alert.py line 64: `(end - today).days`, Python floor semantics. -/
def d_day (endTime asOf : Int) : Int :=
  (endTime - asOf).fdiv oneDay

/-- alert.py lines 50-111: the flag is set exactly when one of the three
buckets (computed over the dropna-cleaned frames) is non-empty. -/
def alert_found (master : List Person) (acts : List Activity) (asOf : Int) : Bool :=
  !(imminent_contracts (masterClean master) asOf CONTRACT_ALERT_DAYS).isEmpty
    || !(imminent_activities (activitiesClean acts) asOf ACTIVITY_ALERT_DAYS).isEmpty
    || !(overdue_activities (activitiesClean acts) asOf).isEmpty

/-- app.py lines 226-257: the dashboard alert section computes only the
imminent-contracts and overdue-activities buckets (over the uncleaned
frames, where NaT comparisons are false) and sets its flag from those two. -/
def app_alert_found (master : List Person) (acts : List Activity) (asOf : Int) : Bool :=
  !(imminent_contracts master asOf 30).isEmpty
    || !(overdue_activities acts asOf).isEmpty

/-- Pandas `pd.merge(rows, master[[Kol_ID, Name]], on="Kol_ID", how="left")`:
each row is paired with the name of every matching master row, or kept once
with a missing name when no master row matches (alert.py lines 83 and 100,
app.py line 250). -/
def leftJoinNames (rows : List Activity) (master : List Person) :
    List (Activity × Option String) :=
  rows.flatMap (fun a =>
    let ms := master.filter (fun p => p.Kol_ID == a.Kol_ID)
    if ms.isEmpty then [(a, none)] else ms.map (fun p => (a, some p.Name)))

/-- IEEE-like value domain for the pandas float columns that can hold
non-finite values. -/
inductive PFloat where
  | nan : PFloat
  | posInf : PFloat
  | negInf : PFloat
  | num : Rat → PFloat
deriving DecidableEq, Repr

/-- Numpy float division as performed by `series / series`: division by
zero yields a signed infinity, 0/0 yields NaN. -/
def pdiv (a b : Rat) : PFloat :=
  if b = 0 then
    if a = 0 then PFloat.nan
    else if 0 < a then PFloat.posInf
    else PFloat.negInf
  else PFloat.num (a / b)

/-- Multiplication of a float column by the positive constant 100. -/
def pmul100 : PFloat → PFloat
  | PFloat.nan => PFloat.nan
  | PFloat.posInf => PFloat.posInf
  | PFloat.negInf => PFloat.negInf
  | PFloat.num q => PFloat.num (q * 100)

/-- Pandas `.fillna(0)`: replaces NaN only; infinities pass through. -/
def pfillna0 : PFloat → PFloat
  | PFloat.nan => PFloat.num 0
  | PFloat.posInf => PFloat.posInf
  | PFloat.negInf => PFloat.negInf
  | PFloat.num q => PFloat.num q

/-- Python `min(x, 100)`: `min(inf, 100) = 100`, `min(-inf, 100) = -inf`,
and `min(nan, 100)` keeps NaN because the comparison is false. -/
def pmin100 : PFloat → PFloat
  | PFloat.nan => PFloat.nan
  | PFloat.posInf => PFloat.num 100
  | PFloat.negInf => PFloat.negInf
  | PFloat.num q => PFloat.num (min q 100)

/-- app.py lines 51-52: `Utilization_Rate = (Spent / Budget) * 100`, then
`.fillna(0).apply(lambda x: min(x, 100))`. -/
def Utilization_Rate (p : Person) : PFloat :=
  pmin100 (pfillna0 (pmul100 (pdiv p.Spent_USD p.Budget_USD)))

/-- app.py line 302 (per-KOL detail view): the same metric with an
explicit guard, `(spent / budget) * 100 if budget > 0 else 0`. -/
def kol_utilization (p : Person) : Rat :=
  if 0 < p.Budget_USD then p.Spent_USD / p.Budget_USD * 100 else 0

/-- app.py line 47: `1 if status == "Done" else 0`. -/
def doneFlag (a : Activity) : Nat :=
  if a.Status == "Done" then 1 else 0

/-- app.py line 48: `groupby(Kol_ID).agg(Total=count, Done=sum)`: one row
per distinct Kol_ID with that persons activity count and done count. -/
def activity_summary (acts : List Activity) : List (Nat × Nat × Nat) :=
  ((acts.map (fun a => a.Kol_ID)).dedup).map (fun k =>
    (k, (acts.filter (fun a => a.Kol_ID == k)).length,
        ((acts.filter (fun a => a.Kol_ID == k)).map doneFlag).sum))

/-- app.py lines 49-50: `Completion_Rate = Done / Total * 100` merged onto
the master with how="left", then fillna of the Completion_Rate column with
0: a person absent from the summary gets 0. -/
def Completion_Rate (acts : List Activity) (k : Nat) : Rat :=
  match (activity_summary acts).find? (fun r => r.1 == k) with
  | none => 0
  | some r => (r.2.2 : Rat) / (r.2.1 : Rat) * 100

/-- app.py line 207: `total_budget = master_df["Budget (USD)"].sum()`. -/
def total_budget (master : List Person) : Rat :=
  (master.map (fun p => p.Budget_USD)).sum

/-- app.py line 208: `total_spent = master_df["Spent (USD)"].sum()`. -/
def total_spent (master : List Person) : Rat :=
  (master.map (fun p => p.Spent_USD)).sum

/-- app.py line 210: overall utilization, guarded and unclamped. -/
def avg_utilization (master : List Person) : Rat :=
  if 0 < total_budget master then total_spent master / total_budget master * 100 else 0

/-- app.py line 213: `master_df.shape[0]`, the total-headcount KPI. -/
def total_headcount (master : List Person) : Nat :=
  master.length

/-- Civil date (year, month, day) of a day number counted from 1970-01-01
(the standard days-from-civil inverse used by date libraries). -/
def civilFromDays (z : Int) : Int × Nat × Nat :=
  let zz := z + 719468
  let era := zz.fdiv 146097
  let doe := (zz - era * 146097).toNat
  let yoe := (doe - doe / 1460 + doe / 36524 - doe / 146096) / 365
  let doy := doe - (365 * yoe + yoe / 4 - yoe / 100)
  let mp := (5 * doy + 2) / 153
  let dd := doy - (153 * mp + 2) / 5 + 1
  let mm := if mp < 10 then mp + 3 else mp - 9
  (era * 400 + yoe + (if mm ≤ 2 then 1 else 0), mm, dd)

/-- Month period of a timestamp, `to_period("M")`, rendered as "YYYY-MM". -/
def yearMonth (t : Int) : String :=
  let c := civilFromDays (t.fdiv oneDay)
  toString c.1 ++ "-" ++ (if c.2.1 < 10 then "0" else "") ++ toString c.2.1

/-- app.py line 145: `Due_Date.dt.to_period("M").astype(str)`: `astype(str)`
renders NaT as the literal string "NaT", so unparsable dates get that label. -/
def yearMonthCol (x : Option Int) : String :=
  match x with
  | none => "NaT"
  | some t => yearMonth t

/-- Pandas `groupby(key).size()`: one (label, count) row per distinct label. -/
def groupCounts (keys : List String) : List (String × Nat) :=
  keys.dedup.map (fun l => (l, (keys.filter (fun k => k == l)).length))

/-- app.py lines 145-146: monthly histogram of all activities by due-date
month label. -/
def timeline_data (acts : List Activity) : List (String × Nat) :=
  groupCounts (acts.map (fun a => yearMonthCol a.Due_Date))

/-- app.py lines 156-158: monthly histogram of Done activities by due-date
month label. -/
def completed_timeline (acts : List Activity) : List (String × Nat) :=
  groupCounts ((acts.filter (fun a => a.Status == "Done")).map
    (fun a => yearMonthCol a.Due_Date))

/-! ## Helper lemmas -/

/-- A label occurring among the keys owns a positive-count row of the
groupby result. -/
theorem mem_groupCounts (keys : List String) (l : String) (hl : l ∈ keys) :
    ∃ k, 0 < k ∧ (l, k) ∈ groupCounts keys := by
  refine ⟨(keys.filter (fun x => x == l)).length, ?_, ?_⟩
  · have hmem : l ∈ keys.filter (fun x => x == l) :=
      List.mem_filter.mpr ⟨hl, by simp⟩
    exact List.length_pos.mpr (List.ne_nil_of_mem hmem)
  · exact List.mem_map.mpr ⟨l, List.mem_dedup.mpr hl, rfl⟩

/-- A left-join row with no key match survives with a missing name. -/
theorem mem_leftJoinNames_of_no_match (rows : List Activity) (master : List Person)
    (a : Activity) (ha : a ∈ rows)
    (hm : master.filter (fun p => p.Kol_ID == a.Kol_ID) = []) :
    (a, (none : Option String)) ∈ leftJoinNames rows master := by
  rw [leftJoinNames, List.mem_flatMap]
  exact ⟨a, ha, by simp [hm]⟩

/-- Every input row of a left join appears in the output with some name. -/
theorem mem_leftJoinNames (rows : List Activity) (master : List Person)
    (a : Activity) (ha : a ∈ rows) :
    ∃ nm, (a, nm) ∈ leftJoinNames rows master := by
  rw [leftJoinNames]
  cases hms : master.filter (fun p => p.Kol_ID == a.Kol_ID) with
  | nil =>
    exact ⟨none, List.mem_flatMap.mpr ⟨a, ha, by simp [hms]⟩⟩
  | cons q qs =>
    refine ⟨some q.Name, List.mem_flatMap.mpr ⟨a, ha, ?_⟩⟩
    simp only [hms, List.isEmpty_cons, if_neg]
    exact List.mem_map.mpr ⟨q, List.mem_cons.mpr (Or.inl rfl), rfl⟩

/-- Splitting a roster by parsedness of the contract date splits its length. -/
theorem length_contract_split (master : List Person) :
    master.length = (master.filter (fun p => p.Contract_End.isSome)).length
      + (master.filter (fun p => p.Contract_End.isNone)).length := by
  induction master with
  | nil => rfl
  | cons p ps ih =>
    cases h : p.Contract_End <;>
      simp [List.filter_cons, h, ih] <;> omega

/-- Summing the done flags counts the activities whose status is Done. -/
theorem sum_doneFlag (l : List Activity) :
    (l.map doneFlag).sum = (l.filter (fun a => a.Status == "Done")).length := by
  induction l with
  | nil => rfl
  | cons a l ih =>
    by_cases h : a.Status = "Done"
    · simp [doneFlag, List.filter_cons, h, ih]
      omega
    · simp [doneFlag, List.filter_cons, h, ih]

/-- Searching a list built by mapping a first-component-preserving function
over a list containing the key finds exactly the row built from the key. -/
theorem find?_map_eq (d : List Nat) (f : Nat → Nat × Nat × Nat)
    (hf : ∀ j, (f j).1 = j) (k : Nat) (hk : k ∈ d) :
    (d.map f).find? (fun r => r.1 == k) = some (f k) := by
  induction d with
  | nil => cases hk
  | cons j d ih =>
    by_cases hj : j = k
    · subst hj
      rw [List.map_cons, List.find?_cons_of_pos]
      simp [hf]
    · rw [List.map_cons, List.find?_cons_of_neg]
      · rcases List.mem_cons.mp hk with h | h
        · exact absurd h.symm hj
        · exact ih h
      · simp [hf, hj]

/-! ## Claims -/

/-- Claim C1 (code bug): the spec defines utilization as 0 whenever budget
is 0, but the code divides first: 150 / 0 is a positive infinity in the
float column, fillna(0) replaces only NaN, and min(x, 100) then clamps the
infinity to 100. The per-KOL detail view of the same file computes the same
metric with an explicit budget-positive guard and reports 0, showing the
intended value. At budget 0 and spent 150 the dashboard column holds 100,
not 0, while the detail view holds 0. -/
theorem c1_zero_budget_overspend_clamps_to_100 :
    Utilization_Rate ⟨1, "A", "KR", "T1", some 0, 0, 150⟩ = PFloat.num 100
    ∧ Utilization_Rate ⟨1, "A", "KR", "T1", some 0, 0, 150⟩ ≠ PFloat.num 0
    ∧ kol_utilization ⟨1, "A", "KR", "T1", some 0, 0, 150⟩ = 0 := by
  refine ⟨by decide, by decide, by decide⟩

/-- Claim C2: a person with a parsed contract-end date is in the
contracts-expiring-soon bucket iff the date lies in the closed interval
from as-of to as-of plus the horizon; a date one day past the upper bound
is excluded, and a contract ending exactly at as-of has day count 0. -/
theorem c2_imminent_contracts_interval (master : List Person) (p : Person)
    (asOf horizon d : Int) (hd : p.Contract_End = some d) :
    (p ∈ imminent_contracts master asOf horizon ↔
      p ∈ master ∧ asOf ≤ d ∧ d ≤ asOf + horizon * oneDay)
    ∧ (d = asOf + horizon * oneDay + oneDay →
        p ∉ imminent_contracts master asOf horizon)
    ∧ (d = asOf → d_day d asOf = 0) := by
  have hmem : p ∈ imminent_contracts master asOf horizon ↔
      p ∈ master ∧ asOf ≤ d ∧ d ≤ asOf + horizon * oneDay := by
    rw [imminent_contracts, List.mem_filter]
    simp only [optLe, optGe, hd, Bool.and_eq_true, decide_eq_true_eq]
    tauto
  refine ⟨hmem, ?_, ?_⟩
  · intro he hin
    have h2 := (hmem.mp hin).2.2
    rw [he] at h2
    have hday : (0 : Int) < oneDay := by decide
    omega
  · intro he
    rw [he, d_day, sub_self, Int.zero_fdiv]

/-- Concrete instance of `c2_imminent_contracts_interval`: a contract
ending exactly at as-of is in the bucket with day count 0. -/
theorem c2_witness :
    (⟨1, "A", "KR", "T1", some 100, 0, 0⟩ : Person) ∈
      imminent_contracts [⟨1, "A", "KR", "T1", some 100, 0, 0⟩] 100 30
    ∧ d_day 100 100 = 0 := by
  have h := c2_imminent_contracts_interval
    [⟨1, "A", "KR", "T1", some 100, 0, 0⟩] ⟨1, "A", "KR", "T1", some 100, 0, 0⟩
    100 30 100 rfl
  exact ⟨h.1.mpr ⟨by simp, by decide, by decide⟩, h.2.2 rfl⟩

/-- Claim C3: an activity with a parsed due date is overdue iff its due
date is strictly before as-of and its status is not "Done"; an activity
whose status is exactly "Done" is never overdue. -/
theorem c3_overdue_membership (acts : List Activity) (asOf : Int) :
    (∀ a : Activity, ∀ d : Int, a.Due_Date = some d →
      (a ∈ overdue_activities acts asOf ↔
        a ∈ acts ∧ d < asOf ∧ a.Status ≠ "Done"))
    ∧ (∀ a : Activity, a.Status = "Done" → a ∉ overdue_activities acts asOf) := by
  constructor
  · intro a d hd
    rw [overdue_activities, List.mem_filter]
    simp only [optLt, hd, Bool.and_eq_true, decide_eq_true_eq,
      Bool.not_eq_true', beq_eq_false_iff_ne, ne_eq]
  · intro a hs hin
    have h := (List.mem_filter.mp hin).2
    simp [optLt, hs] at h

/-- Concrete instance of `c3_overdue_membership`: a "Planned" activity one
day past due is overdue, and the same row with status "Done" is not. -/
theorem c3_witness :
    (⟨1, 1, "Talk", some 0, "Planned"⟩ : Activity) ∈
      overdue_activities [⟨1, 1, "Talk", some 0, "Planned"⟩] 86400
    ∧ (⟨1, 1, "Talk", some 0, "Done"⟩ : Activity) ∉
      overdue_activities [⟨1, 1, "Talk", some 0, "Done"⟩] 86400 := by
  refine ⟨?_, ?_⟩
  · exact ((c3_overdue_membership [⟨1, 1, "Talk", some 0, "Planned"⟩] 86400).1
      ⟨1, 1, "Talk", some 0, "Planned"⟩ 0 rfl).mpr ⟨by simp, by decide, by decide⟩
  · exact (c3_overdue_membership [⟨1, 1, "Talk", some 0, "Done"⟩] 86400).2
      ⟨1, 1, "Talk", some 0, "Done"⟩ rfl

/-- Claim C4 counterexample: the dashboard computes only two of the three
buckets, so on a snapshot whose only alert is an activity due soon the
dashboard reports the all-clear message even though the due-soon bucket,
as the classifier defines it, is non-empty. -/
theorem c4_app_all_clear_counterexample :
    app_alert_found [] [⟨1, 1, "Talk", some 86400, "Planned"⟩] 0 = false
    ∧ imminent_activities [⟨1, 1, "Talk", some 86400, "Planned"⟩] 0
        ACTIVITY_ALERT_DAYS ≠ [] := by
  exact ⟨by decide, by decide⟩

/-- Claim C4 amended: the standalone alert script is alert-free iff all
three of its buckets are empty; the dashboard alert section computes only
the imminent-contracts and overdue-activities buckets and reports the
all-clear iff those two are empty. -/
theorem c4_alert_free_iff_buckets_empty (master : List Person)
    (acts : List Activity) (asOf : Int) :
    (alert_found master acts asOf = false ↔
      imminent_contracts (masterClean master) asOf CONTRACT_ALERT_DAYS = []
      ∧ imminent_activities (activitiesClean acts) asOf ACTIVITY_ALERT_DAYS = []
      ∧ overdue_activities (activitiesClean acts) asOf = [])
    ∧ (app_alert_found master acts asOf = false ↔
      imminent_contracts master asOf 30 = []
      ∧ overdue_activities acts asOf = []) := by
  constructor
  · simp [alert_found, List.isEmpty_iff, and_assoc]
  · simp [app_alert_found, List.isEmpty_iff]

/-- Claim C5 counterexample: an activity whose due date failed to parse is
not excluded from the monthly histogram; astype(str) renders its NaT month
as the literal label "NaT" and groupby keeps that group, so the histogram
of a single unparsable-date activity is one bucket of size one. -/
theorem c5_histogram_nat_counterexample :
    timeline_data [⟨1, 1, "Talk", none, "Planned"⟩] = [("NaT", 1)] := by
  decide

/-- Claim C5 amended: rows with unparsable due dates appear in both monthly
histograms under the literal month label "NaT" (they are not excluded);
they are excluded from both activity alert buckets, persons with
unparsable contract dates are excluded from the contracts bucket, and every
person counts toward the total-headcount KPI whether or not the contract
date parsed. -/
theorem c5_unparsable_dates_handling (master : List Person)
    (acts : List Activity) (asOf horizon : Int) :
    ((∃ a ∈ acts, a.Due_Date = none) →
      ∃ k, 0 < k ∧ ("NaT", k) ∈ timeline_data acts)
    ∧ ((∃ a ∈ acts, a.Due_Date = none ∧ a.Status = "Done") →
      ∃ k, 0 < k ∧ ("NaT", k) ∈ completed_timeline acts)
    ∧ (∀ a : Activity, a.Due_Date = none →
      a ∉ imminent_activities acts asOf horizon
        ∧ a ∉ overdue_activities acts asOf)
    ∧ (∀ p : Person, p.Contract_End = none →
      p ∉ imminent_contracts master asOf horizon)
    ∧ total_headcount master
      = (master.filter (fun p => p.Contract_End.isSome)).length
        + (master.filter (fun p => p.Contract_End.isNone)).length := by
  refine ⟨?_, ?_, ?_, ?_, length_contract_split master⟩
  · rintro ⟨a, ha, hd⟩
    apply mem_groupCounts
    exact List.mem_map.mpr ⟨a, ha, by simp [hd, yearMonthCol]⟩
  · rintro ⟨a, ha, hd, hs⟩
    apply mem_groupCounts
    refine List.mem_map.mpr
      ⟨a, List.mem_filter.mpr ⟨ha, by simp [hs]⟩, by simp [hd, yearMonthCol]⟩
  · intro a hd
    constructor
    · intro hin
      have h := (List.mem_filter.mp hin).2
      simp [optLe, optGe, hd] at h
    · intro hin
      have h := (List.mem_filter.mp hin).2
      simp [optLt, hd] at h
  · intro p hp hin
    have h := (List.mem_filter.mp hin).2
    simp [optLe, optGe, hp] at h

/-- Concrete instance of `c5_unparsable_dates_handling`: the histogram of a
single unparsable-date activity has a positive "NaT" bucket. -/
theorem c5_witness :
    ∃ k, 0 < k ∧ ("NaT", k) ∈ timeline_data [⟨1, 1, "Talk", none, "Planned"⟩] := by
  exact (c5_unparsable_dates_handling [] [⟨1, 1, "Talk", none, "Planned"⟩] 0 7).1
    ⟨⟨1, 1, "Talk", none, "Planned"⟩, by simp, rfl⟩

/-- Claim C6: a person with zero activities gets completion rate 0 through
the left-merge fillna path, and a person with at least one activity gets
the count of their "Done" activities over their activity count, times 100. -/
theorem c6_completion_rate (acts : List Activity) (k : Nat) :
    (acts.filter (fun a => a.Kol_ID == k) = [] → Completion_Rate acts k = 0)
    ∧ (acts.filter (fun a => a.Kol_ID == k) ≠ [] →
      Completion_Rate acts k
        = (((acts.filter (fun a => a.Kol_ID == k)).filter
              (fun a => a.Status == "Done")).length : Rat)
          / ((acts.filter (fun a => a.Kol_ID == k)).length : Rat) * 100) := by
  constructor
  · intro h
    have hfind : (activity_summary acts).find? (fun r => r.1 == k) = none := by
      rw [List.find?_eq_none]
      intro r hr
      rw [activity_summary] at hr
      obtain ⟨j, hj, hrj⟩ := List.mem_map.mp hr
      subst hrj
      simp only [beq_iff_eq]
      intro hjk
      subst hjk
      obtain ⟨a, ha, hak⟩ := List.mem_map.mp (List.mem_dedup.mp hj)
      have hmem : a ∈ acts.filter (fun x => x.Kol_ID == j) :=
        List.mem_filter.mpr ⟨ha, by simp [hak]⟩
      rw [h] at hmem
      cases hmem
    rw [Completion_Rate, hfind]
  · intro h
    obtain ⟨a, ha⟩ := List.exists_mem_of_ne_nil _ h
    have hak : a.Kol_ID = k := by
      simpa using (List.mem_filter.mp ha).2
    have hk : k ∈ (acts.map (fun x => x.Kol_ID)).dedup :=
      List.mem_dedup.mpr (List.mem_map.mpr ⟨a, (List.mem_filter.mp ha).1, hak⟩)
    rw [Completion_Rate, activity_summary,
      find?_map_eq _ _ (fun j => rfl) k hk]
    simp [sum_doneFlag]

/-- Concrete instance of `c6_completion_rate`: a person with no activities
gets 0, and a person with one "Done" and one "Planned" activity gets 50. -/
theorem c6_witness :
    Completion_Rate [] 1 = 0
    ∧ Completion_Rate
        [⟨1, 1, "Talk", none, "Done"⟩, ⟨2, 1, "Talk", none, "Planned"⟩] 1 = 50 := by
  constructor
  · exact (c6_completion_rate [] 1).1 rfl
  · have h := (c6_completion_rate
      [⟨1, 1, "Talk", none, "Done"⟩, ⟨2, 1, "Talk", none, "Planned"⟩] 1).2 (by decide)
    rw [h]
    simp [List.filter_cons]
    norm_num

/-- Claim C7: the due-soon and overdue buckets are disjoint (due-soon needs
a due date at or after as-of, overdue needs one strictly before), and a
"Planned" activity already past due lands only in the overdue bucket. -/
theorem c7_buckets_disjoint (acts : List Activity) (asOf horizon : Int) :
    (∀ a : Activity, a ∈ imminent_activities acts asOf horizon →
      a ∉ overdue_activities acts asOf)
    ∧ (∀ a : Activity, ∀ d : Int, a ∈ acts → a.Due_Date = some d → d < asOf →
      a.Status = "Planned" →
      a ∈ overdue_activities acts asOf
        ∧ a ∉ imminent_activities acts asOf horizon) := by
  constructor
  · intro a hin hover
    have h1 := (List.mem_filter.mp hin).2
    have h2 := (List.mem_filter.mp hover).2
    cases hd : a.Due_Date with
    | none => simp [optLe, optGe, hd] at h1
    | some d =>
      simp only [optLe, optGe, optLt, hd, Bool.and_eq_true,
        decide_eq_true_eq] at h1 h2
      omega
  · intro a d ha hd hlt hs
    constructor
    · refine List.mem_filter.mpr ⟨ha, ?_⟩
      rw [Bool.and_eq_true]
      constructor
      · simp [optLt, hd, hlt]
      · rw [hs]
        decide
    · intro hin
      have h := (List.mem_filter.mp hin).2
      simp only [optLe, optGe, hd, Bool.and_eq_true, decide_eq_true_eq] at h
      omega

/-- Concrete instance of `c7_buckets_disjoint`: a "Planned" activity one
day past due is overdue and not due-soon. -/
theorem c7_witness :
    (⟨1, 1, "Talk", some 0, "Planned"⟩ : Activity) ∈
      overdue_activities [⟨1, 1, "Talk", some 0, "Planned"⟩] 86400
    ∧ (⟨1, 1, "Talk", some 0, "Planned"⟩ : Activity) ∉
      imminent_activities [⟨1, 1, "Talk", some 0, "Planned"⟩] 86400 7 := by
  exact (c7_buckets_disjoint [⟨1, 1, "Talk", some 0, "Planned"⟩] 86400 7).2
    ⟨1, 1, "Talk", some 0, "Planned"⟩ 0 (by simp) rfl (by decide) rfl

/-- Claim C8: a bucket row whose Kol_ID matches no roster row survives the
left join with a missing name, and no bucket row is ever dropped by the
join. -/
theorem c8_orphan_rows_survive (master : List Person) (acts : List Activity)
    (asOf horizon : Int) (a : Activity) :
    (a ∈ imminent_activities acts asOf horizon →
      (master.filter (fun p => p.Kol_ID == a.Kol_ID) = [] →
        (a, (none : Option String)) ∈
          leftJoinNames (imminent_activities acts asOf horizon) master)
      ∧ ∃ nm, (a, nm) ∈ leftJoinNames (imminent_activities acts asOf horizon) master)
    ∧ (a ∈ overdue_activities acts asOf →
      (master.filter (fun p => p.Kol_ID == a.Kol_ID) = [] →
        (a, (none : Option String)) ∈
          leftJoinNames (overdue_activities acts asOf) master)
      ∧ ∃ nm, (a, nm) ∈ leftJoinNames (overdue_activities acts asOf) master) := by
  exact ⟨fun h => ⟨fun hm => mem_leftJoinNames_of_no_match _ _ _ h hm,
      mem_leftJoinNames _ _ _ h⟩,
    fun h => ⟨fun hm => mem_leftJoinNames_of_no_match _ _ _ h hm,
      mem_leftJoinNames _ _ _ h⟩⟩

/-- Concrete instance of `c8_orphan_rows_survive`: an overdue activity
owned by nobody in an empty roster is joined with a missing name. -/
theorem c8_witness :
    ((⟨1, 42, "Talk", some 0, "Planned"⟩ : Activity), (none : Option String)) ∈
      leftJoinNames (overdue_activities [⟨1, 42, "Talk", some 0, "Planned"⟩] 86400) [] := by
  exact ((c8_orphan_rows_survive [] [⟨1, 42, "Talk", some 0, "Planned"⟩] 86400 7
    ⟨1, 42, "Talk", some 0, "Planned"⟩).2 (by decide)).1 (by decide)

/-- Pandas case analysis of the per-person utilization column: it is a
negative infinity (negative spend over zero budget) or a finite value of
at most 100. -/
theorem utilization_cases (p : Person) :
    Utilization_Rate p = PFloat.negInf
    ∨ ∃ q, Utilization_Rate p = PFloat.num q ∧ q ≤ 100 := by
  by_cases hb : p.Budget_USD = 0
  · by_cases hs : p.Spent_USD = 0
    · right
      refine ⟨0, ?_, by norm_num⟩
      simp [Utilization_Rate, pdiv, pmul100, pfillna0, pmin100, hb, hs]
    · by_cases hpos : 0 < p.Spent_USD
      · right
        refine ⟨100, ?_, le_refl 100⟩
        simp [Utilization_Rate, pdiv, pmul100, pfillna0, pmin100, hb, hs, hpos]
      · left
        simp [Utilization_Rate, pdiv, pmul100, pfillna0, pmin100, hb, hs, hpos]
  · right
    refine ⟨min (p.Spent_USD / p.Budget_USD * 100) 100, ?_, min_le_right _ _⟩
    simp [Utilization_Rate, pdiv, pmul100, pfillna0, pmin100, hb]

/-- Claim C9: the overall-utilization KPI is 0 when the summed budget is 0,
and is unclamped: it exceeds 100 whenever total spend exceeds a positive
total budget, while the per-person utilization column never holds a finite
value above 100 nor a positive infinity. -/
theorem c9_overall_utilization_unclamped (master : List Person) :
    (total_budget master = 0 → avg_utilization master = 0)
    ∧ (0 < total_budget master → total_budget master < total_spent master →
      100 < avg_utilization master)
    ∧ (∀ p : Person, Utilization_Rate p ≠ PFloat.posInf)
    ∧ (∀ (p : Person) (q : Rat), Utilization_Rate p = PFloat.num q → q ≤ 100) := by
  refine ⟨?_, ?_, ?_, ?_⟩
  · intro h
    simp [avg_utilization, h]
  · intro hb hs
    rw [avg_utilization, if_pos hb]
    have h1 : 1 < total_spent master / total_budget master := (one_lt_div hb).mpr hs
    calc (100 : Rat) = 1 * 100 := by norm_num
    _ < total_spent master / total_budget master * 100 :=
        mul_lt_mul_of_pos_right h1 (by norm_num)
  · intro p
    rcases utilization_cases p with h | ⟨q, hq, _⟩
    · rw [h]
      intro hc
      cases hc
    · rw [hq]
      intro hc
      cases hc
  · intro p q hq
    rcases utilization_cases p with h | ⟨r, hr, hle⟩
    · rw [h] at hq
      cases hq
    · rw [hr] at hq
      injection hq with h2
      rw [← h2]
      exact hle

/-- Concrete instance of `c9_overall_utilization_unclamped`: one person
with budget 100 and spend 150 gives an overall utilization above 100. -/
theorem c9_witness :
    100 < avg_utilization [⟨1, "A", "KR", "T1", none, 100, 150⟩] := by
  exact (c9_overall_utilization_unclamped [⟨1, "A", "KR", "T1", none, 100, 150⟩]).2.1
    (by norm_num [total_budget]) (by norm_num [total_budget, total_spent])

/-- Claim C10: in the standalone alert script every person whose contract
date failed to parse is dropped from the roster before the display-name
merge, so an activity whose owner was dropped is joined against the
cleaned roster with a missing name in both activity buckets, even though
the owner exists in the raw roster. -/
theorem c10_unparsed_roster_missing_names (master : List Person)
    (acts : List Activity) (asOf : Int) (a : Activity)
    (hall : ∀ q ∈ master, q.Kol_ID = a.Kol_ID → q.Contract_End = none) :
    (∀ q ∈ master, q.Kol_ID = a.Kol_ID → q ∉ masterClean master)
    ∧ (a ∈ overdue_activities acts asOf →
      (a, (none : Option String)) ∈
        leftJoinNames (overdue_activities acts asOf) (masterClean master))
    ∧ (a ∈ imminent_activities acts asOf ACTIVITY_ALERT_DAYS →
      (a, (none : Option String)) ∈
        leftJoinNames (imminent_activities acts asOf ACTIVITY_ALERT_DAYS)
          (masterClean master)) := by
  have hfil : (masterClean master).filter (fun p => p.Kol_ID == a.Kol_ID) = [] := by
    rw [List.filter_eq_nil_iff]
    intro q hq
    have hq2 := List.mem_filter.mp hq
    simp only [beq_iff_eq]
    intro hk
    have hnone := hall q hq2.1 hk
    rw [hnone] at hq2
    simp at hq2
  refine ⟨?_, fun h => mem_leftJoinNames_of_no_match _ _ _ h hfil,
    fun h => mem_leftJoinNames_of_no_match _ _ _ h hfil⟩
  intro q hq hk hqc
  have h1 := (List.mem_filter.mp hqc).2
  rw [hall q hq hk] at h1
  simp at h1

/-- Concrete instance of `c10_unparsed_roster_missing_names`: the owner of
an overdue activity has an unparsable contract date, is dropped by the
cleaning step, and the join yields a missing name. -/
theorem c10_witness :
    ((⟨1, 7, "Talk", some 0, "Planned"⟩ : Activity), (none : Option String)) ∈
      leftJoinNames (overdue_activities [⟨1, 7, "Talk", some 0, "Planned"⟩] 86400)
        (masterClean [⟨7, "B", "US", "T2", none, 0, 0⟩]) := by
  exact (c10_unparsed_roster_missing_names [⟨7, "B", "US", "T2", none, 0, 0⟩]
    [⟨1, 7, "Talk", some 0, "Planned"⟩] 86400 ⟨1, 7, "Talk", some 0, "Planned"⟩
    (by decide)).2.1 (by decide)

end Kol
